import Mathlib

/-!
Verification of the statline-bq pipeline (shallow embedding).

The repository fetches CBS OData datasets (protocol "v3" or "v4"), converts
them to parquet and publishes them to GCS/BigQuery.  The definitions below
are direct translations of the pure decision logic and control flow of the
source functions in `src/statline_bq/utils.py`, `src/statline_bq/main.py`
and `src/statline_bq/log.py`; network responses, disk contents and cloud
effects are passed in explicitly as values.  Python `None` is modelled as
`Option.none`, a raised exception as `Except.error`, Python truthiness of
optional strings/bools by the `pyTruthy*` helpers.
-/

/-- Python truthiness of a value that is either `None` or a string:
`None` and `""` are falsy, any other string is truthy. -/
def pyTruthyStr : Option String → Bool
  | none => false
  | some s => !s.isEmpty

/-- Python truthiness of a value that is either `None` or a bool. -/
def pyTruthyBool : Option Bool → Bool
  | none => false
  | some b => b

/-- `skip_dataset` from `utils.py` lines 394-398 (legacy pipeline, used by
`utils.cbsodata_to_gbq` at line 991):

    if (cbs_modified is None or cbs_modified == gcp_modified) and (not force):
        return True
    else:
        return False

`cbs_modified`/`gcp_modified` are the "Modified" metadata fields, `None`
when absent; Python `==` on them is `Option` equality. -/
def skip_dataset (cbs_modified gcp_modified : Option String) (force : Bool) : Bool :=
  if (cbs_modified.isNone || cbs_modified == gcp_modified) && !force then true
  else false

/-- Decision core of `skip_dataset` from `main.py` lines 38-86 (the decorated
function used by `main.main`), after the two metadata fetches, which supply
`cbs_modified = source_meta.get("Modified")` and
`gcp_modified = gcp_meta.get("Modified")`:

    if force: return False
    if not (cbs_modified or gcp_modified): return False
    elif cbs_modified == gcp_modified: return True
    else: return False

The guard `not (cbs_modified or gcp_modified)` uses Python truthiness. -/
def main_skip_dataset (cbs_modified gcp_modified : Option String) (force : Bool) : Bool :=
  if force then false
  else if !(pyTruthyStr cbs_modified || pyTruthyStr gcp_modified) then false
  else if cbs_modified == gcp_modified then true
  else false

/-- The two OData protocol versions.  Every dict in the source keyed by
`odata_version` has exactly the keys "v3" and "v4". -/
inductive OdataVersion
  | v3
  | v4
deriving DecidableEq, Repr

/-- The `connector` dict of `generate_table_urls` (utils.py line 1235):
v3 base urls already carry a `?$format=json` query, so pages are appended
with `&`; v4 urls get their first query parameter with `?`. -/
def connector : OdataVersion → String
  | .v3 => "&"
  | .v4 => "?"

/-- The `cbs_limit` dict of `generate_table_urls` (utils.py line 1236):
rows per page served by the API. -/
def cbs_limit : OdataVersion → Nat
  | .v3 => 10000
  | .v4 => 100000

/-- The `trailing_zeros` dict of `generate_table_urls` (utils.py line 1237). -/
def trailing_zeros : OdataVersion → Nat
  | .v3 => 4
  | .v4 => 5

/-- `generate_table_urls` from `utils.py` lines 1212-1251:

    if n_records is not None:
        table_urls = [base_url + f"(connector)$skip=(str(i+1))" + "0"*trailing_zeros
                      for i in range(n_records // cbs_limit)]
        table_urls.insert(0, base_url)
    else:
        table_urls = [base_url]

`n_records` is the main-table row count from metadata (`None` for every
non-main table). -/
def generate_table_urls (base_url : String) (n_records : Option Nat)
    (odata_version : OdataVersion) : List String :=
  match n_records with
  | some n =>
      base_url ::
        (List.range (n / cbs_limit odata_version)).map (fun i =>
          base_url ++ connector odata_version ++ "$skip=" ++ toString (i + 1) ++
            String.mk (List.replicate (trailing_zeros odata_version) '0'))
  | none => [base_url]

/-- `check_v4` from `utils.py` lines 57-90, with the network probe passed in:
`probe` is the outcome of `requests.get` on the V4 manifest root —
`Except.ok status` for a completed HTTP response, `Except.error ()` for a
connection failure (in which case `requests.get` raises and, since the
function body has no try/except, the exception propagates).  The second
component counts the network requests performed. -/
def check_v4 (third_party : Bool) (probe : Except Unit Nat) :
    Except Unit String × Nat :=
  if third_party then (Except.ok "v3", 0)
  else
    match probe with
    | Except.error e => (Except.error e, 1)
    | Except.ok status => (Except.ok (if status == 200 then "v4" else "v3"), 1)

/-- The v3 branch of `get_metadata_cbs` from `utils.py` lines 123-148, with
the decoded catalog response (`tables = ...json()["value"]`, the list of
records matching `Identifier eq id`) passed in:

    if tables:
        if len(tables) == 1: meta = tables[0]
        else: pass          # leaves meta unassigned
    else:
        raise KeyError("Dataset ID not found. ...")
    return meta             # unassigned meta raises UnboundLocalError

Metadata records are opaque here (modelled as strings). -/
def get_metadata_cbs_v3 (tables : List String) : Except String String :=
  match tables with
  | [] => Except.error "KeyError: Dataset ID not found"
  | [m] => Except.ok m
  | _ :: _ :: _ =>
      Except.error "UnboundLocalError: local variable meta referenced before assignment"

/-- `url_to_ndjson` from `utils.py` lines 1254-1291, with the network and the
disk abstracted: `page_values` is the decoded `value` list of the page's JSON
body and `path` the ndjson file name that would be written.  A non-empty list
is dumped to disk and the path returned; an empty list returns `None` without
raising (`if r["value"]: ... else: return None`). -/
def url_to_ndjson (page_values : List String) (path : String) : Option String :=
  if page_values.isEmpty then none else some path

/-- Python `set.add` on a set of file paths, modelled on a duplicate-free
list: adding an element already present is a no-op. -/
def pyAddToSet (s : List String) (x : String) : List String :=
  if s.contains x then s else s ++ [x]

/-- Per-table loop of `tables_to_parquet` from `utils.py` lines 1294-1408.
Each table is `(table_name, pages)` where `pages` are the decoded `value`
lists of its page bodies (network abstracted).  The function-local Python
variable `pq_path` is modelled as `Option String`: `none` means it has not
been assigned yet, and the source's `if pq_path:` with `pq_path` unassigned
raises UnboundLocalError (modelled as `Except.error`).  When the table is
non-empty, `convert_ndjsons_to_parquet` assigns `pq_path`; the trailing
`if pq_path: files_parquet.add(pq_path)` runs on every iteration. -/
def tables_to_parquet_loop :
    List (String × List (List String)) → Option String → List String →
      Except String (List String)
  | [], _, files => Except.ok files
  | (table_name, pages) :: rest, pq_path, files =>
      let ndjsons_paths :=
        ((List.range pages.length).zip pages).map
          (fun ip => url_to_ndjson ip.2 (table_name ++ "_page_" ++ toString ip.1))
      let pq_path1 :=
        if ndjsons_paths.any Option.isSome then some (table_name ++ ".parquet")
        else pq_path
      match pq_path1 with
      | none =>
          Except.error "UnboundLocalError: local variable pq_path referenced before assignment"
      | some p => tables_to_parquet_loop rest (some p) (pyAddToSet files p)

/-- `tables_to_parquet` (utils.py lines 1294-1408) run over the non-metadata
tables of a dataset, starting with `files_parquet = set()` and the local
`pq_path` unassigned. -/
def tables_to_parquet (tables : List (String × List (List String))) :
    Except String (List String) :=
  tables_to_parquet_loop tables none []

/-- Prefix test on char lists (Python `str.startswith`, used only to build
the substring test below). -/
def listIsPre : List Char → List Char → Bool
  | [], _ => true
  | _ :: _, [] => false
  | a :: as, b :: bs => a == b && listIsPre as bs

/-- Contiguous-substring test on char lists. -/
def listHasSub (pat : List Char) : List Char → Bool
  | [] => listIsPre pat []
  | s@(_ :: rest) => listIsPre pat s || listHasSub pat rest

/-- Python `pat in s` on strings: contiguous substring containment. -/
def strContainsSub (s pat : String) : Bool :=
  listHasSub pat.toList s.toList

/-- Python `name.replace(".", "_")` (main.py line 240 / utils.py line 1024);
for a one-character pattern `str.replace` is a per-character substitution.
Column names are modelled as char lists. -/
def sanitizeName (name : List Char) : List Char :=
  name.map (fun c => if c == '.' then '_' else c)

/-- One local parquet output file: its path and its column names. -/
structure PqFile where
  fname : String
  columns : List (List Char)
deriving DecidableEq, Repr

/-- The DataProperties rename step of `cbsodata_to_local` (main.py lines
233-243, identically utils.py lines 1017-1027):

    data_properties_pq = next((x for x in files_parquet if "DataProperties" in str(x)), None)
    if data_properties_pq:
        ... rename_columns([name.replace(".", "_") for name in column_names]) ...

Only the first file whose path contains "DataProperties" is rewritten; every
other produced parquet file keeps its column names as fetched. -/
def fix_data_properties_step (files : List PqFile) : List PqFile :=
  match files.findIdx? (fun f => strContainsSub f.fname "DataProperties") with
  | none => files
  | some i =>
      files.mapIdx (fun j f =>
        if j = i then { f with columns := f.columns.map sanitizeName } else f)

/-- Effect summary of one `cbsodata_to_gbq` run (main.py lines 538-590; the
legacy utils.py lines 1001-1093 has the same shape): whether the final
`rmtree(pq_dir.parents[1])` statement was reached, and the value the
decorated call hands back (`None` after `logdec` swallows an exception). -/
structure GbqRun where
  cleaned : Bool
  result : Option (List String)
deriving DecidableEq, Repr

/-- Control flow of `cbsodata_to_gbq` past the skip check (main.py lines
538-590): fetch/convert (`cbsodata_to_local` + `tables_to_parquet`), then
`upload_to_gcs`, then `gcs_to_gbq` with the column-description update, then —
as the last statement of the body, with no try/finally — `rmtree`.  An
exception in any stage skips every later statement including the `rmtree`,
and `logdec` turns it into a `None` return. -/
def cbsodata_to_gbq_run (fetch_result : Except String (List String))
    (upload_ok register_ok : Bool) : GbqRun :=
  match fetch_result with
  | Except.error _ => { cleaned := false, result := none }
  | Except.ok files =>
      if !upload_ok then { cleaned := false, result := none }
      else if !register_ok then { cleaned := false, result := none }
      else { cleaned := true, result := some files }

/-- `logdec` from `log.py` lines 26-50: the wrapper calls the function and
returns its result; a bare `except:` catches any exception, logs it, and
returns `None`.  The wrapped body is modelled as `Except` (error = raised
exception); its Python return value may itself be `None`, hence `Option`. -/
def logdec {α β : Type} (f : α → Except String (Option β)) (a : α) : Option β :=
  match f a with
  | Except.ok v => v
  | Except.error _ => none

/-- Removal of '\n' then '\r' from a description (utils.py line 583:
`col_desc[k].replace("\n", "").replace("\r", "")`); one-character-pattern
`str.replace` with an empty replacement is a character filter. -/
def cleanDesc (s : List Char) : List Char :=
  (s.filter (fun a => !(a == '\n'))).filter (fun a => !(a == '\r'))

/-- Truncation of a cleaned description (utils.py lines 584-585):

    if len(col_desc[k]) > 1023:
        col_desc[k] = col_desc[k][:1020] + "..."
-/
def truncDesc (s : List Char) : List Char :=
  if 1023 < s.length then s.take 1020 ++ ['.', '.', '.'] else s

/-- The per-description body of the cleanup loop in
`get_column_descriptions_v3` (utils.py lines 581-587): strip newlines and
carriage returns, then truncate if the result exceeds 1023 characters. -/
def processDesc (s : List Char) : List Char :=
  truncDesc (cleanDesc s)

/-- `get_column_descriptions_v3` from `utils.py` lines 561-588, with the
decoded DataProperties records passed in as `(Key, Description)` pairs.  A
`None` description raises `AttributeError` inside the `try`, which the bare
`except: pass` swallows, leaving the value untouched (`Option.map`). -/
def get_column_descriptions_v3
    (data_properties : List (String × Option (List Char))) :
    List (String × Option (List Char)) :=
  data_properties.map (fun kv => (kv.1, kv.2.map processDesc))

/-- Outcome of one `main.main` call (main.py lines 729-791) after the skip
check: the early `return None` on a skip, one of the three endpoint branches,
or the `ValueError` for an unknown endpoint. -/
inductive MainOutcome
  | skipped
  | ranLocal
  | ranGcs
  | ranBq
  | invalidEndpoint
deriving DecidableEq, Repr

/-- Endpoint dispatch of `main.main` (main.py lines 738-785):

    if skip_dataset(...) and endpoint != "local":
        return None
    if endpoint == "bq": ...
    elif endpoint == "gcs": ...
    elif endpoint == "local": ...
    else: raise ValueError(...)

`skip_result` is the value of the `logdec`-decorated `skip_dataset` call
(`None` if it raised internally), tested for truthiness by `and`. -/
def main_endpoint_dispatch (skip_result : Option Bool) (endpoint : String) :
    MainOutcome :=
  if pyTruthyBool skip_result && !(endpoint == "local") then MainOutcome.skipped
  else if endpoint == "bq" then MainOutcome.ranBq
  else if endpoint == "gcs" then MainOutcome.ranGcs
  else if endpoint == "local" then MainOutcome.ranLocal
  else MainOutcome.invalidEndpoint

/-- Sample base url used by witness instantiations. -/
def sample_base_url : String :=
  "https://opendata.cbs.nl/ODataFeed/odata/83583NED/TypedDataSet?$format=json"

/-- Sample two-record catalog response used by witness instantiations. -/
def sample_two_matches : List String := ["meta1", "meta2"]

/-! ## Helper lemmas -/

theorem sanitizeName_no_dot (name : List Char) : ('.' : Char) ∉ sanitizeName name := by
  intro hmem
  rcases List.mem_map.mp hmem with ⟨a, _, ha⟩
  by_cases h : a = '.'
  · subst h
    simp at ha
  · have hb : (a == '.') = false := by simp [h]
    rw [hb] at ha
    simp only [Bool.false_eq_true, if_false] at ha
    exact h ha

theorem cleanDesc_no_nl (s : List Char) : ('\n' : Char) ∉ cleanDesc s := by
  intro hmem
  have h1 := (List.mem_filter.mp hmem).1
  have h2 := (List.mem_filter.mp h1).2
  simp at h2

theorem cleanDesc_no_cr (s : List Char) : ('\r' : Char) ∉ cleanDesc s := by
  intro hmem
  have h2 := (List.mem_filter.mp hmem).2
  simp at h2

theorem truncDesc_mem {c : Char} {s : List Char} (hmem : c ∈ truncDesc s) :
    c ∈ s ∨ c = '.' := by
  unfold truncDesc at hmem
  split at hmem
  · rcases List.mem_append.mp hmem with h | h
    · exact Or.inl (List.take_subset _ _ h)
    · right
      simpa using h
  · exact Or.inl hmem

theorem truncDesc_length (s : List Char) : (truncDesc s).length ≤ 1023 := by
  unfold truncDesc
  split
  · next h =>
      simp only [List.length_append, List.length_take, List.length_cons,
        List.length_nil]
      omega
  · next h => omega

theorem processDesc_no_nl (s : List Char) : ('\n' : Char) ∉ processDesc s := by
  intro hmem
  rcases truncDesc_mem hmem with h | h
  · exact cleanDesc_no_nl s h
  · simp at h

theorem processDesc_no_cr (s : List Char) : ('\r' : Char) ∉ processDesc s := by
  intro hmem
  rcases truncDesc_mem hmem with h | h
  · exact cleanDesc_no_cr s h
  · simp at h

theorem processDesc_length (s : List Char) : (processDesc s).length ≤ 1023 :=
  truncDesc_length (cleanDesc s)

theorem processDesc_of_long (s : List Char) (h : 1023 < (cleanDesc s).length) :
    processDesc s = (cleanDesc s).take 1020 ++ ['.', '.', '.'] := by
  unfold processDesc truncDesc
  rw [if_pos h]

/-! ## Claim theorems -/

/-- C1, counterexample.  The claim says that with `force=false` a dataset is
never skipped when the source's "Modified" timestamp is unavailable (`None`).
In the legacy pipeline (`utils.cbsodata_to_gbq`, line 991) the skip decision
is `utils.skip_dataset`, and with `cbs_modified = None`,
`gcp_modified = "2020-01-01T00:00:00"` and `force = False` it returns `True`,
so the run is skipped even though the source timestamp is unavailable. -/
theorem C1_counterexample :
    skip_dataset none (some "2020-01-01T00:00:00") false = true := rfl

/-- C1, amended.  With `force=false`, `main.py`'s `skip_dataset`
(used by `main.main`) skips exactly when both timestamps are available and
truthy (present and non-empty) and equal — in particular never when either is
`None`; but `utils.py`'s `skip_dataset` (legacy `cbsodata_to_gbq` pipeline)
skips whenever the source timestamp is `None` or the two are equal.  With
`force=true` neither skips. -/
theorem C1_theorem (cbs_modified gcp_modified : Option String) (force : Bool) :
    (skip_dataset cbs_modified gcp_modified force = true ↔
      ((cbs_modified = none ∨ cbs_modified = gcp_modified) ∧ force = false)) ∧
    (main_skip_dataset cbs_modified gcp_modified false = true ↔
      (pyTruthyStr cbs_modified = true ∧ pyTruthyStr gcp_modified = true ∧
        cbs_modified = gcp_modified)) ∧
    main_skip_dataset cbs_modified gcp_modified true = false := by
  refine ⟨?_, ?_, by simp [main_skip_dataset]⟩
  · by_cases h1 : cbs_modified = none <;> by_cases h2 : cbs_modified = gcp_modified <;>
      cases force <;> simp [skip_dataset, h1, h2]
  · by_cases he : cbs_modified = gcp_modified
    · subst he
      cases hcb : pyTruthyStr cbs_modified <;> simp [main_skip_dataset, hcb]
    · cases h3 : (pyTruthyStr cbs_modified || pyTruthyStr gcp_modified) <;>
        simp [main_skip_dataset, h3, he]

/-- C2, counterexample.  The claim says `generate_table_urls` returns exactly
`ceil(R / L)` urls for a known row count `R`.  For `R = 20000`, `L = 10000`
(v3) the code returns `20000 // 10000 + 1 = 3` urls while
`ceil(20000 / 10000) = 2`. -/
theorem C2_counterexample :
    (generate_table_urls "base" (some 20000) OdataVersion.v3).length ≠
      (20000 + 10000 - 1) / 10000 := by
  simp [generate_table_urls, cbs_limit]

/-- C2, amended.  For a known row count `R` the list has exactly
`R / L + 1` entries (floor division, the base url plus one `$skip` url per
full page limit), with `L = 10000` for v3 and `L = 100000` for v4; this
equals `ceil(R / L)` exactly when `L` does not divide `R` (e.g. the spec's
scenario `R = 304128`, v3, gives 31 urls).  For an unknown row count
(`None`) the list is exactly the base url. -/
theorem C2_theorem (base_url : String) (n : Nat) (v : OdataVersion) :
    (generate_table_urls base_url (some n) v).length = n / cbs_limit v + 1 ∧
    generate_table_urls base_url none v = [base_url] ∧
    (generate_table_urls base_url (some 304128) OdataVersion.v3).length = 31 ∧
    cbs_limit OdataVersion.v3 = 10000 ∧ cbs_limit OdataVersion.v4 = 100000 ∧
    (n % cbs_limit v ≠ 0 →
      n / cbs_limit v + 1 = (n + cbs_limit v - 1) / cbs_limit v) := by
  refine ⟨by simp [generate_table_urls], rfl,
    by simp [generate_table_urls, cbs_limit], rfl, rfl, ?_⟩
  intro hm
  cases v
  · simp only [cbs_limit] at hm ⊢
    omega
  · simp only [cbs_limit] at hm ⊢
    omega

/-- C2, witness: the amended theorem applied at the spec's own scenario,
`R = 304128` and v3 (where `10000` does not divide `R`, so the floor-plus-one
count coincides with the ceiling). -/
theorem C2_witness :
    304128 / cbs_limit OdataVersion.v3 + 1 =
      (304128 + cbs_limit OdataVersion.v3 - 1) / cbs_limit OdataVersion.v3 :=
  (C2_theorem sample_base_url 304128 OdataVersion.v3).2.2.2.2.2 (by decide)

/-- C3, evaluation at the failing input and at the documented good case.
`url_to_ndjson` on an empty `value` list returns `None` without raising, and
an empty table that comes after a non-empty one is silently skipped with its
siblings unaffected — but if the first fetched table of a dataset is the
empty one, the local `pq_path` in `tables_to_parquet` is still unassigned
when `if pq_path:` runs, and the whole dataset's conversion dies with an
UnboundLocalError, contradicting both the claim and the source's own comment
("these will be computed to None, and skipped here"). -/
theorem C3_theorem :
    url_to_ndjson [] "page_0.ndjson" = none ∧
    tables_to_parquet [("CategoryGroups", [[]]), ("Perioden", [["rec1"]])] =
      Except.error
        "UnboundLocalError: local variable pq_path referenced before assignment" ∧
    tables_to_parquet
        [("TypedDataSet", [["rec1"]]), ("CategoryGroups", [[]]),
          ("Perioden", [["rec2"]])] =
      Except.ok ["TypedDataSet.parquet", "Perioden.parquet"] := by
  refine ⟨rfl, rfl, rfl⟩

/-- C4, counterexample.  The claim says `check_v4` returns V3 on every
non-200 outcome including connection failure.  On a connection failure
`requests.get` raises and `check_v4` has no handler, so the exception
propagates instead of `"v3"` being returned. -/
theorem C4_counterexample :
    (check_v4 false (Except.error ())).1 ≠ Except.ok "v3" := by
  simp [check_v4]

/-- C4, amended.  `check_v4` returns V4 exactly when the probe completes
with HTTP status 200, and returns V3 on every completed response with any
other status; on connection failure the exception propagates (no version is
returned).  With the third-party flag set it returns V3 immediately,
performing no network request; otherwise it performs exactly one. -/
theorem C4_theorem (probe : Except Unit Nat) (status : Nat) :
    ((check_v4 false probe).1 = Except.ok "v4" ↔ probe = Except.ok 200) ∧
    (status ≠ 200 → (check_v4 false (Except.ok status)).1 = Except.ok "v3") ∧
    check_v4 false (Except.error ()) = (Except.error (), 1) ∧
    check_v4 true probe = (Except.ok "v3", 0) ∧
    (check_v4 false probe).2 = 1 := by
  refine ⟨?_, ?_, rfl, rfl, ?_⟩
  · cases probe with
    | error e => simp [check_v4]
    | ok st =>
        by_cases h : st = 200
        · subst h
          simp [check_v4]
        · have hb : (st == 200) = false := by simp [h]
          simp [check_v4, hb, h]
  · intro h
    have hb : (status == 200) = false := by simp [h]
    simp [check_v4, hb]
  · cases probe <;> rfl

/-- C4, witness: the amended theorem applied to a completed probe with
HTTP status 404, the outcome by which every v3-only dataset is detected. -/
theorem C4_witness :
    (check_v4 false (Except.ok 404)).1 = Except.ok "v3" :=
  (C4_theorem (Except.ok 404) 404).2.1 (by decide)

/-- C5, counterexample.  The claim says no column name of any produced
parquet file contains "."; the code only rewrites the first file whose path
contains "DataProperties", so a dotted column name in any other table's file
is written out unchanged. -/
theorem C5_counterexample :
    ∃ f ∈ fix_data_properties_step
        [{ fname := "cbs.v3.84286NED_TypedDataSet.parquet",
           columns := [['a', '.', 'b']] }],
      ∃ c ∈ f.columns, ('.' : Char) ∈ c := by decide

/-- C5, amended.  The dot-to-underscore sanitization is applied to exactly
one file — the first whose path contains "DataProperties" (the one table
known to emit dotted field names): its written column names contain no ".",
while every other file's column names are left exactly as fetched. -/
theorem C5_theorem (files : List PqFile) (i : Nat)
    (hi : files.findIdx? (fun g => strContainsSub g.fname "DataProperties") =
      some i) :
    (∀ f, (fix_data_properties_step files)[i]? = some f →
      ∀ c ∈ f.columns, ('.' : Char) ∉ c) ∧
    (∀ j, j ≠ i → (fix_data_properties_step files)[j]? = files[j]?) := by
  constructor
  · intro f hf c hc
    simp only [fix_data_properties_step, hi, List.getElem?_mapIdx] at hf
    rcases hfi : files[i]? with _ | f0
    · rw [hfi] at hf
      simp at hf
    · rw [hfi] at hf
      simp only [Option.map_some', if_pos rfl, Option.some.injEq] at hf
      subst hf
      rcases List.mem_map.mp hc with ⟨name, _, hname⟩
      rw [← hname]
      exact sanitizeName_no_dot name
  · intro j hj
    simp only [fix_data_properties_step, hi, List.getElem?_mapIdx]
    rcases hfj : files[j]? with _ | f0
    · rfl
    · simp only [Option.map_some', if_neg hj]

/-- C5, witness: the amended theorem applied to a run producing one
DataProperties file with the dotted column name "a.b" (found at index 0). -/
theorem C5_witness :
    (∀ f, (fix_data_properties_step
        [{ fname := "cbs.v3.84286NED_DataProperties.parquet",
           columns := [['a', '.', 'b']] }])[0]? = some f →
      ∀ c ∈ f.columns, ('.' : Char) ∉ c) ∧
    (∀ j, j ≠ 0 → (fix_data_properties_step
        [{ fname := "cbs.v3.84286NED_DataProperties.parquet",
           columns := [['a', '.', 'b']] }])[j]? =
      [{ fname := "cbs.v3.84286NED_DataProperties.parquet",
         columns := [['a', '.', 'b']] : PqFile }][j]?) :=
  C5_theorem
    [{ fname := "cbs.v3.84286NED_DataProperties.parquet",
       columns := [['a', '.', 'b']] }] 0 (by decide)

/-- C6, counterexample.  The claim says the local staging and output
directories are removed on every exit path.  A fetch/convert failure raises
before the `rmtree` statement (the last line of `cbsodata_to_gbq`, with no
try/finally), so nothing is cleaned on a dataset-level failure. -/
theorem C6_counterexample :
    cbsodata_to_gbq_run (Except.error "FetchFailed") true true =
      { cleaned := false, result := none } := rfl

/-- C6, amended.  The `rmtree` cleanup of the run's local directories is
reached exactly when every stage (fetch/convert, upload, catalog
registration) succeeds; on any failure the exception skips the cleanup and
`logdec` turns the call into a `None` return, leaving the local files in
place. -/
theorem C6_theorem (fetch_result : Except String (List String))
    (upload_ok register_ok : Bool) :
    ((cbsodata_to_gbq_run fetch_result upload_ok register_ok).cleaned = true ↔
      (∃ files, fetch_result = Except.ok files) ∧
        upload_ok = true ∧ register_ok = true) ∧
    ((cbsodata_to_gbq_run fetch_result upload_ok register_ok).cleaned = false →
      (cbsodata_to_gbq_run fetch_result upload_ok register_ok).result = none) := by
  cases fetch_result <;> cases upload_ok <;> cases register_ok <;>
    simp [cbsodata_to_gbq_run]

/-- C6, witness: the amended theorem applied to a failing fetch, whose
uncleaned run indeed hands `None` back through `logdec`. -/
theorem C6_witness :
    (cbsodata_to_gbq_run (Except.error "boom") true true).result = none :=
  (C6_theorem (Except.error "boom") true true).2 rfl

/-- C7.  For a v3 dataset the catalog query's matches decide the outcome of
`get_metadata_cbs`: zero matches raise the not-found error (`KeyError:
Dataset ID not found`), and more than one match makes the call fail (the
`else: pass` leaves `meta` unassigned, so `return meta` raises) rather than
silently returning one of the matched records — the ambiguity surfaces to
the caller as an error. -/
theorem C7_theorem (tables : List String) :
    (tables = [] →
      get_metadata_cbs_v3 tables = Except.error "KeyError: Dataset ID not found") ∧
    (2 ≤ tables.length →
      (∃ e, get_metadata_cbs_v3 tables = Except.error e) ∧
      ∀ m, get_metadata_cbs_v3 tables ≠ Except.ok m) := by
  constructor
  · rintro rfl
    rfl
  · intro h2
    rcases tables with _ | ⟨a, rest1⟩
    · simp at h2
    rcases rest1 with _ | ⟨b, rest⟩
    · simp at h2
    exact ⟨⟨_, rfl⟩, fun m hm => by simp [get_metadata_cbs_v3] at hm⟩

/-- C7, witness: the theorem applied to a zero-match and a two-match
catalog response. -/
theorem C7_witness :
    get_metadata_cbs_v3 [] = Except.error "KeyError: Dataset ID not found" ∧
    ∀ m, get_metadata_cbs_v3 sample_two_matches ≠ Except.ok m :=
  ⟨(C7_theorem []).1 rfl,
    fun m => ((C7_theorem sample_two_matches).2 (by decide)).2 m⟩

set_option maxRecDepth 40000 in
/-- C8, counterexample.  The claim says every description *originally*
longer than 1023 characters is truncated to its first 1020 characters with a
trailing "...".  The code measures the length only after stripping newlines
and carriage returns (utils.py lines 583-585): a 1024-character description
holding one newline shrinks to 1023 characters and is not truncated and gets
no ellipsis. -/
theorem C8_counterexample :
    1023 < ('\n' :: List.replicate 1023 'a').length ∧
    processDesc ('\n' :: List.replicate 1023 'a') = List.replicate 1023 'a' ∧
    (['.', '.', '.'] : List Char).isSuffixOf
      (processDesc ('\n' :: List.replicate 1023 'a')) = false := by
  refine ⟨by simp, by decide, by decide⟩

/-- C8, amended.  Every description in `get_column_descriptions_v3`'s output
contains no newline or carriage return and is at most 1023 characters long;
every description whose length *after* removing newlines and carriage
returns exceeds 1023 is truncated to the first 1020 characters of the
cleaned text plus a trailing "...". -/
theorem C8_theorem (props : List (String × Option (List Char))) (k : String)
    (d : List Char) (hmem : (k, some d) ∈ get_column_descriptions_v3 props) :
    ('\n' : Char) ∉ d ∧ ('\r' : Char) ∉ d ∧ d.length ≤ 1023 ∧
    ∃ s, (k, some s) ∈ props ∧ d = processDesc s ∧
      (1023 < (cleanDesc s).length →
        d = (cleanDesc s).take 1020 ++ ['.', '.', '.']) := by
  rcases List.mem_map.mp hmem with ⟨⟨k1, v1⟩, hkv, heq⟩
  rw [Prod.mk.injEq] at heq
  rcases heq with ⟨hk, hv⟩
  subst hk
  rcases v1 with _ | s
  · simp at hv
  · rw [Option.map_some', Option.some.injEq] at hv
    subst hv
    exact ⟨processDesc_no_nl s, processDesc_no_cr s, processDesc_length s,
      s, hkv, rfl, processDesc_of_long s⟩

/-- C8, witness: the amended theorem applied to a one-column DataProperties
response whose description is the single character "a". -/
theorem C8_witness :
    ('\n' : Char) ∉ (['a'] : List Char) ∧ ('\r' : Char) ∉ (['a'] : List Char) ∧
    (['a'] : List Char).length ≤ 1023 ∧
    ∃ s, ("Key", some s) ∈ [("Key", some (['a'] : List Char))] ∧
      (['a'] : List Char) = processDesc s ∧
      (1023 < (cleanDesc s).length →
        (['a'] : List Char) = (cleanDesc s).take 1020 ++ ['.', '.', '.']) :=
  C8_theorem [("Key", some ['a'])] "Key" ['a'] (by decide)

/-- C9.  The `logdec` decorator's wrapper catches every exception raised by
the wrapped function (`log.py` lines 41-48, a bare `except:`) and returns
`None` instead, so a decorated call never raises, and a call that failed is
indistinguishable by its return value from one that legitimately returned
`None`. -/
theorem C9_theorem {α β : Type} (f g : α → Except String (Option β)) (a : α)
    (e : String) (hf : f a = Except.error e) (hg : g a = Except.ok none) :
    logdec f a = none ∧ logdec f a = logdec g a := by
  simp [logdec, hf, hg]

/-- C9, witness: a body raising "boom" and a body legitimately returning
`None` produce the same `None` through `logdec`. -/
theorem C9_witness :
    logdec (fun _ : Nat => (Except.error "boom" : Except String (Option Nat))) 0 =
      none ∧
    logdec (fun _ : Nat => (Except.error "boom" : Except String (Option Nat))) 0 =
      logdec (fun _ : Nat => (Except.ok none : Except String (Option Nat))) 0 :=
  C9_theorem _ _ 0 "boom" rfl rfl

/-- C10.  In `main.main` the skip decision is applied only through
`if skip_dataset(...) and endpoint != "local"`, so with `endpoint="local"`
the run always proceeds to the local fetch-and-convert branch — even when
the timestamps are equal and `force=false`, i.e. when `skip_dataset` is true
— and among the supported endpoints the skip early-return takes effect only
for "gcs" and "bq". -/
theorem C10_theorem (skip_result : Option Bool) (cbs_modified gcp_modified : Option String)
    (endpoint : String)
    (hep : endpoint = "local" ∨ endpoint = "gcs" ∨ endpoint = "bq") :
    main_endpoint_dispatch skip_result "local" = MainOutcome.ranLocal ∧
    main_endpoint_dispatch (some (main_skip_dataset cbs_modified gcp_modified false))
      "local" ≠ MainOutcome.skipped ∧
    main_endpoint_dispatch (some true) "gcs" = MainOutcome.skipped ∧
    main_endpoint_dispatch (some true) "bq" = MainOutcome.skipped ∧
    (main_endpoint_dispatch skip_result endpoint = MainOutcome.skipped →
      endpoint = "gcs" ∨ endpoint = "bq") := by
  have hloc : ∀ sr : Option Bool,
      main_endpoint_dispatch sr "local" = MainOutcome.ranLocal := by
    intro sr
    rcases sr with _ | b
    · rfl
    · cases b <;> rfl
  refine ⟨hloc _, by rw [hloc]; simp, rfl, rfl, ?_⟩
  rcases hep with rfl | rfl | rfl
  · intro h
    rw [hloc] at h
    exact absurd h (by simp)
  · exact fun _ => Or.inl rfl
  · exact fun _ => Or.inr rfl

/-- C10, witness: skipping fires for "gcs" with a true skip decision, never
for "local". -/
theorem C10_witness :
    main_endpoint_dispatch (some true) "local" = MainOutcome.ranLocal ∧
    main_endpoint_dispatch
      (some (main_skip_dataset (some "2020-01-01") (some "2020-01-01") false))
      "local" ≠ MainOutcome.skipped ∧
    main_endpoint_dispatch (some true) "gcs" = MainOutcome.skipped ∧
    main_endpoint_dispatch (some true) "bq" = MainOutcome.skipped ∧
    (main_endpoint_dispatch (some true) "gcs" = MainOutcome.skipped →
      "gcs" = "gcs" ∨ "gcs" = "bq") :=
  C10_theorem (some true) (some "2020-01-01") (some "2020-01-01") "gcs"
    (Or.inr (Or.inl rfl))
